import Mathlib

set_option maxRecDepth 8192

/-!
Shallow embedding of tools/string_headers.py (Boost.Metaparse header
generator) and verification of its specified properties.

Python strings are modelled as Lean `String`; the mutable output stream
threaded through the Python helpers is modelled by returning the emitted
text; the output directory is modelled as a partial map from file names
to file contents (`Dir`); a Python exception aborting a run is modelled
by a `Bool` success flag together with the partial state reached.
-/

namespace Metaparse

/-- Python `chr.lower()` on one character (ASCII, as used here). -/
def lowerChar (c : Char) : Char :=
  if 'A' ≤ c ∧ c ≤ 'Z' then Char.ofNat (c.toNat + 32) else c

/-- Python `str.lower()`. -/
def str_lower (s : String) : String := String.mk (s.data.map lowerChar)

/-- Python `chr.upper()` on one character (ASCII, as used here). -/
def upperChar (c : Char) : Char :=
  if 'a' ≤ c ∧ c ≤ 'z' then Char.ofNat (c.toNat - 32) else c

/-- Python `str.upper()`. -/
def str_upper (s : String) : String := String.mk (s.data.map upperChar)

/-- One uppercase hexadecimal digit. -/
def hexDigitChar (n : Nat) : Char :=
  match n with
  | 0 => '0' | 1 => '1' | 2 => '2' | 3 => '3' | 4 => '4' | 5 => '5'
  | 6 => '6' | 7 => '7' | 8 => '8' | 9 => '9' | 10 => 'A' | 11 => 'B'
  | 12 => 'C' | 13 => 'D' | 14 => 'E' | 15 => 'F' | _ => '0'

/-- Digit list of Python `'{0:X}'.format(n)` (fuel-driven recursion;
`fuel = n + 1` always suffices since the argument shrinks by /16). -/
def toHexUpperAux : Nat → Nat → List Char
  | 0, _ => []
  | fuel + 1, n =>
    if n < 16 then [hexDigitChar n]
    else toHexUpperAux fuel (n / 16) ++ [hexDigitChar (n % 16)]

/-- Python `'{0:X}'.format(n)`: minimal-width uppercase hexadecimal. -/
def toHexUpper (n : Nat) : String := String.mk (toHexUpperAux (n + 1) n)

/-- Python `str.zfill(width)` (inputs here are plain digit strings). -/
def zfill (s : String) (width : Nat) : String :=
  String.mk (List.replicate (width - s.data.length) '0') ++ s

/-- Python 2 `xrange(start, stop, step)` as a list (positive step). -/
def pyrange (start stop step : Nat) : List Nat :=
  (List.range ((stop - start + step - 1) / step)).map (fun k => start + k * step)

/-- Python `int(s)` for the decimal digit strings used by the script. -/
def str_to_nat (s : String) : Nat :=
  s.data.foldl (fun a c => a * 10 + (c.toNat - 48)) 0

/-- `VERSION = 1` (string_headers.py line 15). -/
def VERSION : Nat := 1

/-- `macro_name` (line 102): full macro name with version prefix. -/
def macro_name (name : String) : String :=
  "BOOST_METAPARSE_V" ++ toString VERSION ++ "_" ++ name

/-- `write_autogen_info` (line 57): the emitted comment text. -/
def write_autogen_info : String :=
  "\n// This is an automatically generated header file.\n// Generated with the tools/string_headers.py utility of\n// Boost.Metaparse\n"

/-- `write_no_include_guard_info` (line 67): the emitted comment text. -/
def write_no_include_guard_info : String :=
  "// no include guard: the header might be included multiple times\n"

/-- The `arg_list` computed inside `define_macro` (lines 115-118). -/
def arg_list_text (args : List String) : String :=
  if args.length > 0 then "(" ++ String.intercalate ", " args ++ ")" else ""

/-- `define_macro` (lines 107-130): text emitted for one macro
definition or undefinition. -/
def define_macro (m : String × List String × String)
    (undefine : Bool) (check : Bool) : String :=
  match m with
  | (name, args, body) =>
    if undefine then
      "#undef " ++ macro_name name ++ "\n"
    else
      (if check then
        "#ifdef " ++ macro_name name ++ "\n#  error " ++ macro_name name ++
          " already defined.\n#endif\n"
      else "") ++
      ("#define " ++ macro_name name ++ arg_list_text args ++ " " ++ body ++ "\n")

/-- `filename` (lines 133-139), relative to the output directory. -/
def filename (name : String) (undefine : Bool) : String :=
  (if undefine then "undef_" else "") ++ str_lower name ++ ".hpp"

/-- Body of the count-`k` helper emitted by `generate_enum`
(lines 158-184): empty for 0, base case for 1, and for `k ≥ 2` the
call of helper `k-1` followed by a CAT term numbered `k-1`. -/
def enum_helper_body (internal_name : String) (k : Nat) : String :=
  match k with
  | 0 => ""
  | 1 => macro_name "CAT" ++ "(param, 0)"
  | m + 2 =>
    macro_name internal_name ++ toString (m + 1) ++ "(param), " ++
      macro_name "CAT" ++ "(param, " ++ toString (m + 1) ++ ")"

/-- Body of the count-`k` helper emitted by `generate_repetition`
(lines 203-226). -/
def repetition_helper_body (internal_name : String) (k : Nat) : String :=
  match k with
  | 0 => ""
  | 1 => "param"
  | m + 2 => macro_name internal_name ++ toString (m + 1) ++ "(param), param"

/-- `generate_enum` (lines 142-184): full text of the generated file. -/
def generate_enum (name internal_name : String) (max_count : Nat)
    (undefine : Bool) : String :=
  write_no_include_guard_info ++ write_autogen_info ++
  define_macro
    (name, ["count", "param"],
      macro_name "CAT" ++ "(" ++ macro_name internal_name ++ ", count)(param)")
    undefine true ++
  define_macro (internal_name ++ "0", ["param"], enum_helper_body internal_name 0)
    undefine false ++
  define_macro (internal_name ++ "1", ["param"], enum_helper_body internal_name 1)
    undefine false ++
  String.join ((pyrange 2 (max_count + 1) 1).map (fun count =>
    define_macro (internal_name ++ toString count, ["param"],
      enum_helper_body internal_name count) undefine false))

/-- `generate_repetition` (lines 187-226): full text of the file. -/
def generate_repetition (name internal_name : String) (max_count : Nat)
    (undefine : Bool) : String :=
  write_no_include_guard_info ++ write_autogen_info ++
  define_macro
    (name, ["count", "param"],
      macro_name "CAT" ++ "(" ++ macro_name internal_name ++ ", count)(param)")
    undefine true ++
  define_macro (internal_name ++ "0", ["param"],
    repetition_helper_body internal_name 0) undefine false ++
  define_macro (internal_name ++ "1", ["param"],
    repetition_helper_body internal_name 1) undefine false ++
  String.join ((pyrange 2 (max_count + 1) 1).map (fun count =>
    define_macro (internal_name ++ toString count, ["param"],
      repetition_helper_body internal_name count) undefine false))

/-- `length_limits` (lines 229-239). -/
def length_limits (max_length_limit length_limit_step : Nat) : List String :=
  (pyrange length_limit_step (max_length_limit + length_limit_step - 1)
      length_limit_step).map
    (fun i => zfill (toString i) (toString max_length_limit).data.length)

/-- One batched index-access expression (line 249). -/
def string_at_batched (exp i : Nat) : String :=
  "BOOST_METAPARSE_V1_STRING_AT" ++ toString exp ++ "((s), " ++ toHexUpper i ++ ")"

/-- One explicit single-position lookup expression (lines 253-257). -/
def impl_string_at (length_limit i : Nat) : String :=
  "::boost::metaparse::v" ++ toString VERSION ++ "::impl::string_at<" ++
    toString length_limit ++ ">((s), " ++ toString i ++ ")"

/-- One iteration of the weight loop of `generate_string_indexing`
(lines 246-251): divmod by `16 ^ exp`, emit that many batched calls. -/
def string_indexing_step (acc : List String × Nat) (exp : Nat) :
    List String × Nat :=
  (acc.1 ++ (List.range (acc.2 / 16 ^ exp)).map (string_at_batched exp),
    acc.2 % 16 ^ exp)

/-- The batched calls emitted by `generate_string_indexing` (the
`result` list after the weight loop, lines 244-251). -/
def string_indexing_batches (length_limit : Nat) : List String :=
  (List.foldl string_indexing_step ([], length_limit) [3, 2, 1]).1

/-- The full expression list of `generate_string_indexing`
(lines 244-258): batched calls, then explicit lookups. -/
def string_indexing_parts (length_limit : Nat) : List String :=
  string_indexing_batches length_limit ++
    (List.range
        (List.foldl string_indexing_step ([], length_limit) [3, 2, 1]).2).map
      (impl_string_at length_limit)

/-- `generate_string_indexing` (lines 242-259). -/
def generate_string_indexing (length_limit : Nat) : String :=
  String.intercalate ", " (string_indexing_parts length_limit)

/-- Indentation prefix of `Namespace.prefix` (line 43): two spaces per
nesting depth. -/
def nsIndent (depth : Nat) : String := String.mk (List.replicate (2 * depth) ' ')

/-- Text written by `Namespace.begin` (lines 25-31). -/
def namespace_begin (names : List String) : String :=
  "\n" ++ String.join (names.enum.map (fun p =>
    nsIndent p.1 ++ "namespace " ++ p.2 ++ "\n" ++ nsIndent p.1 ++ "\x7b\n"))

/-- Text written by `Namespace.end` (lines 33-36). -/
def namespace_end (names : List String) : String :=
  String.join ((List.range names.length).reverse.map (fun d =>
    nsIndent d ++ "\x7d\n"))

/-- `Namespace.path` (lines 45-47). -/
def ns_path (names : List String) : String :=
  "::" ++ String.intercalate "::" names

/-- Text written by `IncludeGuard.begin` (lines 77-88); the `V1` in the
guard token is hardcoded in the source, independent of `VERSION`. -/
def include_guard_begin (name : String) (undefine : Bool) : String :=
  "#ifndef BOOST_METAPARSE_V1_IMPL_" ++
    (if undefine then "UNDEF_" ++ str_upper name else str_upper name) ++
    "_HPP\n#define BOOST_METAPARSE_V1_IMPL_" ++
    (if undefine then "UNDEF_" ++ str_upper name else str_upper name) ++
    "_HPP\n" ++ write_autogen_info

/-- Text written by `IncludeGuard.end` (lines 90-92). -/
def include_guard_end : String := "\n#endif\n"

/-- The namespace list used by `generate_with_length_limit` (line 271). -/
def impl_namespaces : List String :=
  ["boost", "metaparse", "v" ++ toString VERSION, "impl"]

/-- `generate_with_length_limit` (lines 262-306): full text of one
`stringN.hpp` file, for the zero-padded limit string. -/
def generate_with_length_limit (length_limit_str : String) : String :=
  include_guard_begin ("string" ++ length_limit_str) false ++
  define_macro ("TMP_LENGTH_LIMIT", [], toString (str_to_nat length_limit_str))
    false true ++
  namespace_begin impl_namespaces ++
  nsIndent impl_namespaces.length ++ macro_name "DEFINE_STRING" ++ "\n" ++
  "\n" ++
  String.join ((pyrange 1 (str_to_nat length_limit_str) 1).map
    (fun spec_length =>
      nsIndent impl_namespaces.length ++ macro_name "" ++ "(" ++
        toString spec_length ++ ", " ++
        toString (str_to_nat length_limit_str - spec_length) ++ ")\n")) ++
  nsIndent impl_namespaces.length ++ macro_name "SPECIALISE_STRING0" ++ "\n" ++
  namespace_end impl_namespaces ++
  define_macro ("TMP_LENGTH_LIMIT", [], "") true true ++
  define_macro ("STRING" ++ toString (str_to_nat length_limit_str), ["s"],
    ns_path impl_namespaces ++ "::string" ++
      toString (str_to_nat length_limit_str) ++ "<" ++
      generate_string_indexing (str_to_nat length_limit_str) ++ ">::type")
    false true ++
  include_guard_end

/-- `max_value` (lines 309-311); `none` models the `ValueError` Python's
`max` raises on an empty sequence. -/
def max_value (values : List String) : Option Nat :=
  match values with
  | [] => none
  | v :: vs => some (vs.foldl (fun a x => Nat.max a (str_to_nat x)) (str_to_nat v))

/-- The five family-header basenames listed in `generate_string`
(lines 336-342). -/
def family_headers : List String :=
  ["enum_params", "cat", "enum_constant", "define_string", "specialise_string"]

/-- The part of `string.hpp` written before the `#else` branch
(lines 332-376): comments, guards, includes and the `#if`/`#elif`
chain.  When `max_value` raises, this is all the text that has been
flushed to the file. -/
def string_hpp_head (limits : List String) : String :=
  write_no_include_guard_info ++ write_autogen_info ++
  "\n#ifndef BOOST_METAPARSE_LIMIT_STRING_SIZE\n#  error BOOST_METAPARSE_LIMIT_STRING_SIZE not defined\n#endif\n" ++
  "\n#ifdef BOOST_METAPARSE_V1_STRING\n#  undef BOOST_METAPARSE_V1_STRING\n#endif\n\n" ++
  String.join (family_headers.map (fun h =>
    "#include <boost/metaparse/v" ++ toString VERSION ++ "/impl/" ++ h ++
      ".hpp>\n")) ++
  "\n" ++
  String.join (limits.enum.map (fun p =>
    (if p.1 = 0 then "#if" else "#elif") ++
      " BOOST_METAPARSE_LIMIT_STRING_SIZE <= " ++ toString (str_to_nat p.2) ++
      "\n#  include <boost/metaparse/v" ++ toString VERSION ++ "/impl/string" ++
      p.2 ++ ".hpp>\n#  define BOOST_METAPARSE_V1_STRING" ++
      " BOOST_METAPARSE_V1_STRING" ++ toString (str_to_nat p.2) ++ "\n"))

/-- The `#else` branch of `string.hpp` (lines 378-386). -/
def string_hpp_else (m : Nat) : String :=
  "#else\n#  error BOOST_METAPARSE_LIMIT_STRING_SIZE is greater than " ++
    toString m ++
    ". To increase the limit run tools/string_headers.py of Boost.Metaparse against your Boost headers.\n#endif\n\n"

/-- The trailing undef includes of `string.hpp` (lines 388-392). -/
def undef_includes_text : String :=
  String.join (family_headers.map (fun h =>
    "#include <boost/metaparse/v" ++ toString VERSION ++ "/impl/undef_" ++ h ++
      ".hpp>\n"))

/-- An output directory: file name to file contents. -/
def Dir : Type := String → Option String

/-- Writing (or overwriting) one file. -/
def write (d : Dir) (n : String) (c : String) : Dir :=
  fun m => if m = n then some c else d m

/-- Writing a list of files, left to right. -/
def write_all (d : Dir) (ws : List (String × String)) : Dir :=
  ws.foldl (fun acc p => write acc p.1 p.2) d

/-- Executable semantics of the tail of the regex `string[0-9]+.hpp`
(line 410) after the literal `string`: one or more digits, then any
single character, then `hpp`, then anything (the pattern is anchored
only at the start by `re.match`). -/
def regex_digits_then : List Char → Bool
  | [] => false
  | d :: t =>
    d.isDigit &&
      ((match t with
        | _ :: h :: p1 :: p2 :: _ => h = 'h' && p1 = 'p' && p2 = 'p'
        | _ => false) ||
       regex_digits_then t)

/-- `re.match('string[0-9]+.hpp', s)` as a Boolean (lines 410-412). -/
def string_header_regex_match (s : String) : Bool :=
  match s.data with
  | 's' :: 't' :: 'r' :: 'i' :: 'n' :: 'g' :: t => regex_digits_then t
  | _ => false

/-- The six fixed names removed by `remove_old_headers` (lines 405-408). -/
def old_header_names : List String :=
  ["enum_params.hpp", "enum_constant.hpp", "string.hpp",
   "undef_enum_params.hpp", "undef_enum_constant.hpp", "undef_string.hpp"]

/-- `remove_old_headers` (lines 403-413) as a directory transformer:
the six fixed names and every directory entry matching the regex are
deleted (deleting an absent file is a no-op, as in `remove_file`). -/
def remove_old_headers (d : Dir) : Dir :=
  fun n =>
    if old_header_names.contains n || string_header_regex_match n then none
    else d n

/-- The (file name, contents) pairs written by `generate_headers`
(lines 314-327), in write order. -/
def generate_headers_files (limits : List String) (max_limit : Nat) :
    List (String × String) :=
  [(filename "ENUM_PARAMS" true, generate_enum "ENUM_PARAMS" "EP" max_limit true),
   (filename "ENUM_CONSTANT" true,
     generate_repetition "ENUM_CONSTANT" "EC" max_limit true),
   (filename "ENUM_PARAMS" false,
     generate_enum "ENUM_PARAMS" "EP" max_limit false),
   (filename "ENUM_CONSTANT" false,
     generate_repetition "ENUM_CONSTANT" "EC" max_limit false)] ++
  limits.map (fun l =>
    (filename ("string" ++ l) false, generate_with_length_limit l))

/-- `generate` (lines 416-420): remove old headers, write `string.hpp`
(fully when `max_value` succeeds, partially when it raises), then the
family and per-limit headers.  The Boolean is the success flag; `false`
models the `ValueError` escaping from `generate_string`. -/
def generate (d : Dir) (limits : List String) : Dir × Bool :=
  match max_value limits with
  | none =>
    (write (remove_old_headers d) (filename "string" false)
      (string_hpp_head limits), false)
  | some m =>
    (write_all
      (write (remove_old_headers d) (filename "string" false)
        (string_hpp_head limits ++ string_hpp_else m ++ undef_includes_text))
      (generate_headers_files limits m), true)

/-! ## Claim-side definitions (stated from the spec's words, for
comparison with the source-derived definitions above) -/

/-- Claim C2's reading of `length_limits`: all positive multiples of
`S` not exceeding `M + S - 1`, zero-padded to the digit-width of `M`. -/
def claimC2_list (M S : Nat) : List String :=
  ((List.range (M + S)).filter (fun n => decide (0 < n) && n % S == 0)).map
    (fun n => zfill (toString n) (toString M).data.length)

/-- The next step boundary: the smallest multiple of `S` that is `≥ M`
(for `M` not a multiple of `S`), as `S * ((M + S - 1) / S)`. -/
def next_step_boundary (M S : Nat) : Nat := S * ((M + S - 1) / S)

/-- Claim C4's version of the enumeration helper body: the CAT term
numbered `k` (the source numbers it `k - 1`). -/
def claimC4_body (internal_name : String) (k : Nat) : String :=
  macro_name internal_name ++ toString (k - 1) ++ "(param)" ++ ", " ++
    macro_name "CAT" ++ "(param, " ++ toString k ++ ")"

/-- Claim C5's rendering of a block index: exactly two uppercase
hexadecimal digits. -/
def hex2upper (i : Nat) : String :=
  String.mk [hexDigitChar (i / 16 % 16), hexDigitChar (i % 16)]

/-- Claim C5 as stated: every batched call uses a 2-digit uppercase
hexadecimal block index. -/
def claimC5_prop (L : Nat) : Prop :=
  ∀ s ∈ string_indexing_batches L, ∃ e ∈ [1, 2, 3], ∃ i ∈ List.range 256,
    s = "BOOST_METAPARSE_V1_STRING_AT" ++ toString e ++ "((s), " ++
      hex2upper i ++ ")"

/-- Checker for the documented file-name form `stringN.hpp`:
`string`, one or more digits, then exactly `.hpp`; this is the tail
after `string` (digits then the literal suffix). -/
def doc_form_tail : List Char → Bool
  | [] => false
  | c :: t => c.isDigit && ((t == ['.', 'h', 'p', 'p']) || doc_form_tail t)

/-- Whether a file name has the documented form `stringN.hpp`. -/
def doc_form (s : String) : Bool :=
  match s.data with
  | 's' :: 't' :: 'r' :: 'i' :: 'n' :: 'g' :: t => doc_form_tail t
  | _ => false

/-! ## Helper lemmas -/

theorem append_left_ne_empty (a b : String) (h : a.data ≠ []) : a ++ b ≠ "" := by
  intro hc
  apply h
  have hd := congrArg String.data hc
  rw [String.data_append] at hd
  exact (List.append_eq_nil.mp hd).1

/-! ## The claims -/

/-- C8: `length_limits(2048, 128)` produces exactly the sixteen
zero-padded multiples of 128 from "0128" through "2048", in increasing
order. -/
theorem claim_C8 :
    length_limits 2048 128 =
      ["0128", "0256", "0384", "0512", "0640", "0768", "0896", "1024",
       "1152", "1280", "1408", "1536", "1664", "1792", "1920", "2048"] ∧
    (length_limits 2048 128).length = 16 := by
  constructor
  · decide
  · decide

/-- C6: `define_macro` with `undefine = true` emits exactly one
`#undef` line whatever `check` is; with `undefine = false` and
`check = true` it emits the `#ifdef`/`#error`/`#endif` collision check
followed by the `#define`; with `check = false` the check block is
omitted and only the `#define` is emitted. -/
theorem claim_C6 (name : String) (args : List String) (body : String) :
    (∀ check,
      define_macro (name, args, body) true check =
        "#undef " ++ macro_name name ++ "\n") ∧
    define_macro (name, args, body) false true =
      ("#ifdef " ++ macro_name name ++ "\n#  error " ++ macro_name name ++
        " already defined.\n#endif\n") ++
      ("#define " ++ macro_name name ++ arg_list_text args ++ " " ++ body ++
        "\n") ∧
    define_macro (name, args, body) false false =
      "#define " ++ macro_name name ++ arg_list_text args ++ " " ++ body ++
        "\n" := by
  refine ⟨fun check => rfl, rfl, ?_⟩
  show ("" : String) ++ _ = _
  apply String.ext
  rw [String.data_append]
  rfl

/-- C3: in both macro families, helper 0 has an empty body, and for
`2 ≤ k ≤ N` the body of helper `k` starts with the call of helper
`k-1` (the internal macro name for `k-1` applied to `param`) as a
strict prefix, followed by further nonempty text. -/
theorem claim_C3 (internal_name : String) (N k : Nat) (hN : 1 ≤ N)
    (hk : 2 ≤ k) (hkN : k ≤ N) :
    enum_helper_body internal_name 0 = "" ∧
    repetition_helper_body internal_name 0 = "" ∧
    (∃ t, t ≠ "" ∧
      enum_helper_body internal_name k =
        (macro_name internal_name ++ toString (k - 1) ++ "(param)") ++ t) ∧
    (∃ t, t ≠ "" ∧
      repetition_helper_body internal_name k =
        (macro_name internal_name ++ toString (k - 1) ++ "(param)") ++ t) := by
  obtain ⟨m, rfl⟩ : ∃ m, k = m + 2 := ⟨k - 2, by omega⟩
  have h1 : m + 2 - 1 = m + 1 := by omega
  refine ⟨rfl, rfl,
    ⟨", " ++ (macro_name "CAT" ++ ("(param, " ++ (toString (m + 1) ++ ")"))),
      ?_, ?_⟩,
    ⟨", param", ?_, ?_⟩⟩
  · exact append_left_ne_empty ", " _ (by decide)
  · rw [h1]
    show macro_name internal_name ++ toString (m + 1) ++ "(param), " ++
      macro_name "CAT" ++ "(param, " ++ toString (m + 1) ++ ")" = _
    apply String.ext
    simp [String.data_append, List.append_assoc]
  · decide
  · rw [h1]
    show macro_name internal_name ++ toString (m + 1) ++ "(param), param" = _
    apply String.ext
    simp [String.data_append, List.append_assoc]

/-- Witness for C3 at `internal_name = "EP"`, `N = k = 2`. -/
theorem claim_C3_witness :
    enum_helper_body "EP" 0 = "" ∧
    repetition_helper_body "EP" 0 = "" ∧
    (∃ t, t ≠ "" ∧
      enum_helper_body "EP" 2 =
        (macro_name "EP" ++ toString (2 - 1) ++ "(param)") ++ t) ∧
    (∃ t, t ≠ "" ∧
      repetition_helper_body "EP" 2 =
        (macro_name "EP" ++ toString (2 - 1) ++ "(param)") ++ t) :=
  claim_C3 "EP" 2 2 (by decide) (by decide) (by decide)

/-- C4 as stated is false: in `generate_enum` the CAT term of helper
`k` is numbered `k - 1`, not `k`; at `internal_name = "EP"`, `k = 2`
the generated body ends in `(param, 1)` while the claim demands
`(param, 2)`. -/
theorem claim_C4_counterexample :
    enum_helper_body "EP" 2 =
      "BOOST_METAPARSE_V1_EP1(param), BOOST_METAPARSE_V1_CAT(param, 1)" ∧
    claimC4_body "EP" 2 =
      "BOOST_METAPARSE_V1_EP1(param), BOOST_METAPARSE_V1_CAT(param, 2)" ∧
    enum_helper_body "EP" 2 ≠ claimC4_body "EP" 2 := by
  refine ⟨by decide, ?_, by decide⟩
  decide

/-- C4 (amended): in enumeration mode, for `2 ≤ k` the body of helper
`k` is the call of helper `k-1` applied to `param`, followed by a CAT
call on `param` whose numeric parameter is `k - 1`. -/
theorem claim_C4_amended (internal_name : String) (k : Nat) (hk : 2 ≤ k) :
    enum_helper_body internal_name k =
      (macro_name internal_name ++ toString (k - 1) ++ "(param)") ++ ", " ++
        macro_name "CAT" ++ "(param, " ++ toString (k - 1) ++ ")" := by
  obtain ⟨m, rfl⟩ : ∃ m, k = m + 2 := ⟨k - 2, by omega⟩
  have h1 : m + 2 - 1 = m + 1 := by omega
  rw [h1]
  show macro_name internal_name ++ toString (m + 1) ++ "(param), " ++
    macro_name "CAT" ++ "(param, " ++ toString (m + 1) ++ ")" = _
  apply String.ext
  simp [String.data_append, List.append_assoc]

/-- Witness for the amended C4 at `internal_name = "EP"`, `k = 2`. -/
theorem claim_C4_amended_witness :
    enum_helper_body "EP" 2 =
      (macro_name "EP" ++ toString (2 - 1) ++ "(param)") ++ ", " ++
        macro_name "CAT" ++ "(param, " ++ toString (2 - 1) ++ ")" :=
  claim_C4_amended "EP" 2 (by decide)

/-- C2 as stated is false: at `M = 3`, `S = 2` the code produces only
`["2"]` (the `xrange` stop `M + S - 1` is exclusive), while the claim's
sequence of multiples of `S` not exceeding `M + S - 1` is `["2", "4"]`,
and the claimed final limit `4` (the next step boundary above `M = 3`)
is never produced. -/
theorem claim_C2_counterexample :
    length_limits 3 2 = ["2"] ∧
    claimC2_list 3 2 = ["2", "4"] ∧
    length_limits 3 2 ≠ claimC2_list 3 2 ∧
    3 % 2 ≠ 0 ∧
    next_step_boundary 3 2 = 4 ∧
    (length_limits 3 2).getLast? ≠
      some (zfill (toString (next_step_boundary 3 2))
        (toString 3).data.length) := by
  refine ⟨by decide, by decide, by decide, by decide, by decide, by decide⟩

theorem hexDigitChar_ok (n : Nat) :
    ('0' ≤ hexDigitChar n ∧ hexDigitChar n ≤ '9') ∨
    ('A' ≤ hexDigitChar n ∧ hexDigitChar n ≤ 'F') := by
  unfold hexDigitChar
  split <;> decide

theorem toHexUpperAux_ok (fuel : Nat) : ∀ n, ∀ c ∈ toHexUpperAux fuel n,
    ('0' ≤ c ∧ c ≤ '9') ∨ ('A' ≤ c ∧ c ≤ 'F') := by
  induction fuel with
  | zero => intro n c hc; simp [toHexUpperAux] at hc
  | succ f ih =>
    intro n c hc
    by_cases h : n < 16
    · simp [toHexUpperAux, h] at hc
      subst hc
      exact hexDigitChar_ok n
    · simp [toHexUpperAux, h] at hc
      rcases hc with h1 | h2
      · exact ih (n / 16) c h1
      · subst h2
        exact hexDigitChar_ok (n % 16)

theorem toHexUpperAux_ne_nil (fuel n : Nat) (h : 1 ≤ fuel) :
    toHexUpperAux fuel n ≠ [] := by
  cases fuel with
  | zero => omega
  | succ f => by_cases h16 : n < 16 <;> simp [toHexUpperAux, h16]

/-- C1: the index expressions for limit `L` are the weight-16³ batched
calls, then the weight-16² ones, then the weight-16¹ ones, then the
explicit single lookups, and the batch counts weighted by 4096, 256 and
16 plus the number of single lookups add up to exactly `L`, with fewer
than 16 single lookups. -/
theorem claim_C1 (L : Nat) (hL : 1 ≤ L) :
    ∃ n3 n2 n1 r,
      string_indexing_parts L =
        (List.range n3).map (string_at_batched 3) ++
        (List.range n2).map (string_at_batched 2) ++
        (List.range n1).map (string_at_batched 1) ++
        (List.range r).map (impl_string_at L) ∧
      n3 * 4096 + n2 * 256 + n1 * 16 + r = L ∧ r < 16 := by
  refine ⟨L / 16 ^ 3, L % 16 ^ 3 / 16 ^ 2, L % 16 ^ 3 % 16 ^ 2 / 16 ^ 1,
    L % 16 ^ 3 % 16 ^ 2 % 16 ^ 1, ?_, ?_, ?_⟩
  · simp [string_indexing_parts, string_indexing_batches,
      string_indexing_step, List.foldl, List.append_assoc]
  · have h1 := Nat.div_add_mod L (16 ^ 3)
    have h2 := Nat.div_add_mod (L % 16 ^ 3) (16 ^ 2)
    have h3 := Nat.div_add_mod (L % 16 ^ 3 % 16 ^ 2) (16 ^ 1)
    have e3 : (16 : Nat) ^ 3 = 4096 := by norm_num
    have e2 : (16 : Nat) ^ 2 = 256 := by norm_num
    have e1 : (16 : Nat) ^ 1 = 16 := by norm_num
    rw [e3, e2, e1] at *
    omega
  · have e1 : (16 : Nat) ^ 1 = 16 := by norm_num
    rw [e1]
    exact Nat.mod_lt _ (by norm_num)

/-- Witness for C1 at `L = 17`: per the spec, one weight-16¹ batch and
one explicit lookup. -/
theorem claim_C1_witness :
    ∃ n3 n2 n1 r,
      string_indexing_parts 17 =
        (List.range n3).map (string_at_batched 3) ++
        (List.range n2).map (string_at_batched 2) ++
        (List.range n1).map (string_at_batched 1) ++
        (List.range r).map (impl_string_at 17) ∧
      n3 * 4096 + n2 * 256 + n1 * 16 + r = 17 ∧ r < 16 :=
  claim_C1 17 (by decide)

/-- C5 as stated is false: at `L = 16` the single batched call renders
its block index as the one-digit `0`, not as a 2-digit uppercase
hexadecimal numeral. -/
theorem claim_C5_counterexample :
    string_indexing_batches 16 = ["BOOST_METAPARSE_V1_STRING_AT1((s), 0)"] ∧
    ¬ claimC5_prop 16 := by
  constructor
  · decide
  · unfold claimC5_prop
    decide

/-- C5 (amended): every batched call emitted for any limit `L` is a
weight-16¹, 16² or 16³ call whose block index is rendered as
minimal-width uppercase hexadecimal — a nonempty string of characters
from 0-9 and A-F only (so no `0x` prefix and no fixed 2-digit width). -/
theorem claim_C5_amended (L : Nat) :
    ∀ s ∈ string_indexing_batches L, ∃ e i,
      (e = 1 ∨ e = 2 ∨ e = 3) ∧ s = string_at_batched e i ∧
      string_at_batched e i =
        "BOOST_METAPARSE_V1_STRING_AT" ++ toString e ++ "((s), " ++
          toHexUpper i ++ ")" ∧
      (toHexUpper i).data ≠ [] ∧
      ∀ c ∈ (toHexUpper i).data,
        ('0' ≤ c ∧ c ≤ '9') ∨ ('A' ≤ c ∧ c ≤ 'F') := by
  intro s hs
  have hb : string_indexing_batches L =
      (List.range (L / 16 ^ 3)).map (string_at_batched 3) ++
      ((List.range (L % 16 ^ 3 / 16 ^ 2)).map (string_at_batched 2) ++
        (List.range (L % 16 ^ 3 % 16 ^ 2 / 16 ^ 1)).map
          (string_at_batched 1)) := by
    simp [string_indexing_batches, string_indexing_step, List.foldl,
      List.append_assoc]
  rw [hb] at hs
  rcases List.mem_append.mp hs with h3 | h21
  · obtain ⟨i, _, rfl⟩ := List.mem_map.mp h3
    exact ⟨3, i, by tauto, rfl, rfl, toHexUpperAux_ne_nil _ _ (by omega),
      toHexUpperAux_ok _ _⟩
  · rcases List.mem_append.mp h21 with h2 | h1
    · obtain ⟨i, _, rfl⟩ := List.mem_map.mp h2
      exact ⟨2, i, by tauto, rfl, rfl, toHexUpperAux_ne_nil _ _ (by omega),
        toHexUpperAux_ok _ _⟩
    · obtain ⟨i, _, rfl⟩ := List.mem_map.mp h1
      exact ⟨1, i, by tauto, rfl, rfl, toHexUpperAux_ne_nil _ _ (by omega),
        toHexUpperAux_ok _ _⟩

/-- Witness for the amended C5 at `L = 4096` and its single batched
call. -/
theorem claim_C5_amended_witness :
    ∃ e i,
      (e = 1 ∨ e = 2 ∨ e = 3) ∧
      "BOOST_METAPARSE_V1_STRING_AT3((s), 0)" = string_at_batched e i ∧
      string_at_batched e i =
        "BOOST_METAPARSE_V1_STRING_AT" ++ toString e ++ "((s), " ++
          toHexUpper i ++ ")" ∧
      (toHexUpper i).data ≠ [] ∧
      ∀ c ∈ (toHexUpper i).data,
        ('0' ≤ c ∧ c ≤ '9') ∨ ('A' ≤ c ∧ c ≤ 'F') :=
  claim_C5_amended 4096 "BOOST_METAPARSE_V1_STRING_AT3((s), 0)" (by decide)

/-- A directory holding one previously generated header, used to
exhibit C9's behaviour on a concrete state. -/
def sample_dir : Dir :=
  fun n => if n = "string0128.hpp" then some "old" else none

/-- C9 as stated is false in its final part: with `M = 1` the limit
list is empty and `generate` does delete the old headers and abort at
`max_value`, but it has already created `string.hpp` (with all the text
before the `#else` branch), so a new header IS written. -/
theorem claim_C9_counterexample :
    length_limits 1 1 = [] ∧
    (generate sample_dir (length_limits 1 1)).2 = false ∧
    (generate sample_dir (length_limits 1 1)).1 "string0128.hpp" = none ∧
    (generate sample_dir (length_limits 1 1)).1 "string.hpp" =
      some (string_hpp_head []) ∧
    string_hpp_head [] ≠ "" := by
  refine ⟨by decide, by decide, by decide, by decide, by decide⟩

/-- C9 (amended): for `M = 1` and any `S ≥ 1`, `length_limits` is
empty; `generate` removes the old headers and fails at `max_value` on
the empty list, ending with the old headers removed, `string.hpp` left
partially written (only the text before the `#else` branch), and no
other new header written. -/
theorem claim_C9_amended (S : Nat) (hS : 1 ≤ S) (d : Dir) :
    length_limits 1 S = [] ∧
    generate d (length_limits 1 S) =
      (write (remove_old_headers d) (filename "string" false)
        (string_hpp_head []), false) := by
  have hc : (S - 1) / S = 0 := Nat.div_eq_of_lt (by omega)
  have h0 : length_limits 1 S = [] := by
    simp [length_limits, pyrange, hc]
  refine ⟨h0, ?_⟩
  rw [h0]
  rfl

/-- Witness for the amended C9 at `S = 1` on a concrete directory. -/
theorem claim_C9_amended_witness :
    length_limits 1 1 = [] ∧
    generate sample_dir (length_limits 1 1) =
      (write (remove_old_headers sample_dir) (filename "string" false)
        (string_hpp_head []), false) :=
  claim_C9_amended 1 (by decide) sample_dir

/-- A directory holding two files that are not of the documented
`stringN.hpp` form but match the deletion regex. -/
def sample_dir2 : Dir :=
  fun n =>
    if n = "string12xhpp" ∨ n = "string12.hpp.bak" then some "stale" else none

/-- C10: `remove_old_headers` deletes the six fixed names and every
name matching `string[0-9]+.hpp` from the start (unescaped dot, end
unanchored); in particular `string12xhpp` and `string12.hpp.bak`, which
are not of the documented `stringN.hpp` form, are also deleted. -/
theorem claim_C10 :
    (∀ (d : Dir) (n : String), string_header_regex_match n = true →
      remove_old_headers d n = none) ∧
    (∀ (d : Dir) (n : String), old_header_names.contains n = true →
      remove_old_headers d n = none) ∧
    string_header_regex_match "string12xhpp" = true ∧
    doc_form "string12xhpp" = false ∧
    string_header_regex_match "string12.hpp.bak" = true ∧
    doc_form "string12.hpp.bak" = false ∧
    remove_old_headers sample_dir2 "string12xhpp" = none ∧
    remove_old_headers sample_dir2 "string12.hpp.bak" = none ∧
    sample_dir2 "string12xhpp" = some "stale" ∧
    sample_dir2 "string12.hpp.bak" = some "stale" := by
  refine ⟨?_, ?_, by decide, by decide, by decide, by decide, by decide,
    by decide, by decide, by decide⟩
  · intro d n h
    simp [remove_old_headers, h]
  · intro d n h
    have hb : (old_header_names.contains n || string_header_regex_match n) =
        true := by rw [h]; exact Bool.true_or _
    show (if old_header_names.contains n || string_header_regex_match n
      then none else d n) = none
    rw [hb]
    rfl

/-- Witness for C10's universally quantified parts on a concrete
regex-matching name. -/
theorem claim_C10_witness :
    remove_old_headers sample_dir2 "string1.hppX" = none ∧
    remove_old_headers sample_dir2 "string.hpp" = none :=
  ⟨claim_C10.1 sample_dir2 "string1.hppX" (by decide),
    claim_C10.2.1 sample_dir2 "string.hpp" (by decide)⟩

theorem range_mul_eq_filter (S : Nat) (hS : 1 ≤ S) (B : Nat) :
    (List.range ((B - 1) / S)).map (fun k => S + k * S) =
    (List.range B).filter (fun n => decide (0 < n) && n % S == 0) := by
  induction B with
  | zero => simp
  | succ B ih =>
    rw [List.range_succ, List.filter_append]
    rcases Nat.eq_zero_or_pos B with rfl | hBpos
    · simp
    · have hS' : 0 < S := by omega
      have hrw : B - 1 + 1 = B := by omega
      have hsucc := Nat.succ_div (B - 1) S
      rw [hrw] at hsucc
      by_cases hdvd : S ∣ B
      · have hq : B / S = (B - 1) / S + 1 := by rw [hsucc, if_pos hdvd]
        have hm : B % S = 0 := by
          obtain ⟨c, hc⟩ := hdvd
          rw [hc]
          exact Nat.mul_mod_right S c
        have hf : S + (B - 1) / S * S = B := by
          have h1 : S + (B - 1) / S * S = ((B - 1) / S + 1) * S := by ring
          rw [h1, ← hq, Nat.div_mul_cancel hdvd]
        rw [show B + 1 - 1 = B from rfl, hq, List.range_succ, List.map_append,
          ih]
        congr 1
        simp [List.filter, hm, hBpos, hf]
      · have hq : B / S = (B - 1) / S := by rw [hsucc, if_neg hdvd]; omega
        have hm : ¬ (B % S = 0) := fun hh => hdvd (Nat.dvd_of_mod_eq_zero hh)
        have hcond : (decide (0 < B) && (B % S == 0)) = false := by simp [hm]
        rw [show B + 1 - 1 = B from rfl, hq, ih]
        simp [List.filter, hcond]

theorem pyrange_stop_count (B S : Nat) (hS : 1 ≤ S) :
    (B - S + S - 1) / S = (B - 1) / S := by
  rcases le_or_lt S B with h | h
  · congr 1
    omega
  · rw [show B - S + S - 1 = S - 1 from by omega,
      Nat.div_eq_of_lt (show S - 1 < S from by omega),
      Nat.div_eq_of_lt (show B - 1 < S from by omega)]

theorem length_limits_eq (M S : Nat) (hS : 1 ≤ S) :
    length_limits M S =
      ((List.range (M + S - 1)).filter
        (fun n => decide (0 < n) && n % S == 0)).map
        (fun n => zfill (toString n) (toString M).data.length) := by
  unfold length_limits pyrange
  rw [pyrange_stop_count (M + S - 1) S hS, range_mul_eq_filter S hS (M + S - 1)]

/-- C2 (amended): `length_limits(M, S)` is the ordered sequence of the
positive multiples of `S` strictly below `M + S - 1` (not "not
exceeding `M + S - 1`"), zero-padded to the digit-width of `M`; and
whenever `M mod S ≥ 2` (not merely `M` not a multiple of `S`), the
final produced limit is the smallest multiple of `S` that is `≥ M`,
exceeding `M` by at most `S - 1`. -/
theorem claim_C2_amended (M S : Nat) (hM : 1 ≤ M) (hS : 1 ≤ S) :
    length_limits M S =
      ((List.range (M + S - 1)).filter
        (fun n => decide (0 < n) && n % S == 0)).map
        (fun n => zfill (toString n) (toString M).data.length) ∧
    (2 ≤ M % S →
      S ∣ next_step_boundary M S ∧
      M ≤ next_step_boundary M S ∧
      next_step_boundary M S ≤ M + S - 1 ∧
      (∀ t, S ∣ t → M ≤ t → next_step_boundary M S ≤ t) ∧
      (length_limits M S).getLast? =
        some (zfill (toString (next_step_boundary M S))
          (toString M).data.length)) := by
  refine ⟨length_limits_eq M S hS, fun hr => ?_⟩
  obtain ⟨a, r, hr2, hrS, rfl⟩ : ∃ a r, 2 ≤ r ∧ r < S ∧ M = S * a + r :=
    ⟨M / S, M % S, hr, Nat.mod_lt _ (by omega), (Nat.div_add_mod M S).symm⟩
  have hS' : 0 < S := by omega
  have hmulS : S * (a + 1) = S * a + S := by ring
  have hq1 : (S * a + r + S - 1) / S = a + 1 := by
    rw [show S * a + r + S - 1 = S * (a + 1) + (r - 1) from by omega,
      Nat.mul_add_div hS', Nat.div_eq_of_lt (show r - 1 < S from by omega)]
  have hb : next_step_boundary (S * a + r) S = S * (a + 1) := by
    show S * ((S * a + r + S - 1) / S) = S * (a + 1)
    rw [hq1]
  refine ⟨?_, ?_, ?_, ?_, ?_⟩
  · rw [hb]
    exact dvd_mul_right S (a + 1)
  · rw [hb]
    omega
  · rw [hb]
    omega
  · intro t htd htm
    obtain ⟨b, rfl⟩ := htd
    rw [hb]
    have h1 : S * a < S * b := by omega
    have h2 : a < b := Nat.lt_of_mul_lt_mul_left h1
    exact Nat.mul_le_mul_left S h2
  · have hcnt : (S * a + r + S - 1 - S + S - 1) / S = a + 1 := by
      rw [show S * a + r + S - 1 - S + S - 1 = S * (a + 1) + (r - 2) from by
          omega,
        Nat.mul_add_div hS', Nat.div_eq_of_lt (show r - 2 < S from by omega)]
    show ((pyrange S (S * a + r + S - 1) S).map
      (fun i => zfill (toString i) (toString (S * a + r)).data.length)).getLast?
      = _
    unfold pyrange
    rw [hcnt, List.range_succ, List.map_append, List.map_append]
    rw [show (List.map (fun k => S + k * S) [a]).map
        (fun i => zfill (toString i) (toString (S * a + r)).data.length) =
        [zfill (toString (S + a * S)) (toString (S * a + r)).data.length] from
        rfl]
    rw [List.getLast?_concat, hb]
    rw [show S + a * S = S * (a + 1) from by ring]

/-- Witness for the amended C2 at `M = 8`, `S = 3` (where
`M mod S = 2`): the produced limits are the multiples of 3 below 10 and
the final one is the boundary 9. -/
theorem claim_C2_amended_witness :
    length_limits 8 3 =
      ((List.range 10).filter (fun n => decide (0 < n) && n % 3 == 0)).map
        (fun n => zfill (toString n) (toString 8).data.length) ∧
    (length_limits 8 3).getLast? =
      some (zfill (toString (next_step_boundary 8 3))
        (toString 8).data.length) :=
  ⟨(claim_C2_amended 8 3 (by decide) (by decide)).1,
    ((claim_C2_amended 8 3 (by decide) (by decide)).2 (by decide)).2.2.2.2⟩

/-- The full (name, contents) write list of one `generate` run. -/
def generate_writes (limits : List String) : List (String × String) :=
  match max_value limits with
  | none => [(filename "string" false, string_hpp_head limits)]
  | some m =>
    (filename "string" false,
      string_hpp_head limits ++ string_hpp_else m ++ undef_includes_text) ::
      generate_headers_files limits m

theorem generate_fst (d : Dir) (limits : List String) :
    (generate d limits).1 =
      write_all (remove_old_headers d) (generate_writes limits) := by
  unfold generate generate_writes
  cases max_value limits <;> rfl

theorem write_all_not_mem (ws : List (String × String)) (d : Dir) (n : String)
    (h : ∀ p ∈ ws, p.1 ≠ n) : write_all d ws n = d n := by
  induction ws generalizing d with
  | nil => rfl
  | cons p t ih =>
    have hp : p.1 ≠ n := h p (List.mem_cons_self p t)
    have ht : ∀ q ∈ t, q.1 ≠ n := fun q hq => h q (List.mem_cons_of_mem p hq)
    show write_all (write d p.1 p.2) t n = d n
    rw [ih (write d p.1 p.2) ht]
    show (if n = p.1 then some p.2 else d n) = d n
    rw [if_neg (fun hh => hp hh.symm)]

theorem write_all_mem (ws : List (String × String)) (d d' : Dir) (n : String)
    (h : ∃ p ∈ ws, p.1 = n) : write_all d ws n = write_all d' ws n := by
  induction ws generalizing d d' with
  | nil =>
    obtain ⟨p, hp, _⟩ := h
    exact absurd hp (List.not_mem_nil p)
  | cons p t ih =>
    by_cases htm : ∃ q ∈ t, q.1 = n
    · exact ih (write d p.1 p.2) (write d' p.1 p.2) htm
    · push_neg at htm
      show write_all (write d p.1 p.2) t n = write_all (write d' p.1 p.2) t n
      rw [write_all_not_mem t _ n htm, write_all_not_mem t _ n htm]
      obtain ⟨q, hq, hqn⟩ := h
      rcases List.mem_cons.mp hq with rfl | hqt
      · show (if n = q.1 then some q.2 else d n) =
          (if n = q.1 then some q.2 else d' n)
        rw [if_pos hqn.symm, if_pos hqn.symm]
      · exact absurd hqn (htm q hqt)

/-- C7: generation is deterministic and idempotent — the contents
written are a pure function of the limit list, and running `generate`
a second time on the directory state left by a first run reproduces
that state exactly (every generated file byte-identical, nothing else
changed). -/
theorem claim_C7 (d : Dir) (limits : List String) :
    (generate (generate d limits).1 limits).1 = (generate d limits).1 := by
  rw [generate_fst, generate_fst]
  funext n
  by_cases hm : ∃ p ∈ generate_writes limits, p.1 = n
  · exact write_all_mem (generate_writes limits) _ _ n hm
  · push_neg at hm
    rw [write_all_not_mem (generate_writes limits) _ n hm,
      write_all_not_mem (generate_writes limits) _ n hm]
    show (if old_header_names.contains n || string_header_regex_match n
        then none
        else write_all (remove_old_headers d) (generate_writes limits) n) =
      (if old_header_names.contains n || string_header_regex_match n then none
        else d n)
    cases hB : (old_header_names.contains n || string_header_regex_match n) with
    | true => rfl
    | false =>
      show write_all (remove_old_headers d) (generate_writes limits) n = d n
      rw [write_all_not_mem (generate_writes limits) _ n hm]
      show (if old_header_names.contains n || string_header_regex_match n
        then none else d n) = d n
      rw [hB]
      rfl

end Metaparse
